import Mathlib

/-!
# Exam-session and scoring engine — shallow embedding

A shallow embedding of the exam-session core of `src/app.py`:

* the relational state (`tests`, `questions`, `submissions`, `answers`
  tables of `init_db`) as a `DB` structure of lists of rows;
* the scoring function `band_from_raw` (lines 117–131), with the float
  percentage modelled as an exact rational;
* the per-answer grading rule embedded in `api_answer` (lines 216–220),
  factored here as `grade` over the question type, the possibly-NULL
  answer key, and the already-trimmed response;
* the answer upsert endpoint `api_answer` (lines 200–237) and the
  finalization endpoint `test_finish` (lines 239–260), with the current
  UTC timestamp passed in as a parameter and the HTTP outcome modelled
  as an `Option` payload (`none` = the request was refused with no
  state change).

SQLite row ids are modelled by a `next_answer_id` counter; NULL-able TEXT
columns are `Option String`.
-/

namespace IeltsMock

/-- A row of the `tests` table. -/
structure Test where
  id : Nat
  title : String
  slug : String
  section_label : String
  duration_minutes : Nat
  deriving Repr, DecidableEq

/-- A row of the `questions` table. `answer_key` is a NULL-able TEXT
column, hence `Option String`. -/
structure Question where
  id : Nat
  test_id : Nat
  qtype : String
  prompt : String
  answer_key : Option String
  order_index : Nat
  deriving Repr, DecidableEq

/-- A row of the `submissions` table. `finished_at` is NULL until the
submission is finalized; `raw_score` defaults to 0 and `band_score`
to 0.0. -/
structure Submission where
  id : Nat
  user_id : Nat
  test_id : Nat
  started_at : Option String
  finished_at : Option String
  raw_score : Nat
  band_score : ℚ
  deriving Repr, DecidableEq

/-- A row of the `answers` table. `is_correct` is the INTEGER 0/1 flag,
modelled as `Bool`. -/
structure Answer where
  id : Nat
  submission_id : Nat
  question_id : Nat
  response : String
  is_correct : Bool
  deriving Repr, DecidableEq

/-- The database state: the four tables the session engine touches, plus
the AUTOINCREMENT counter for `answers.id`. -/
structure DB where
  tests : List Test
  questions : List Question
  submissions : List Submission
  answers : List Answer
  next_answer_id : Nat
  deriving Repr, DecidableEq

/-- `band_from_raw` (src/app.py lines 117–131): 0.0 when `total` is zero,
otherwise the percentage `raw / total` mapped through the ordered
threshold chain, highest first.  The Python float division is modelled as
exact division in `ℚ`. -/
def band_from_raw (raw : Nat) (total : Nat) : ℚ :=
  if total = 0 then 0
  else
    let pct : ℚ := (raw : ℚ) / (total : ℚ)
    if pct ≥ 95/100 then 9
    else if pct ≥ 90/100 then 85/10
    else if pct ≥ 85/100 then 8
    else if pct ≥ 75/100 then 75/10
    else if pct ≥ 70/100 then 7
    else if pct ≥ 65/100 then 65/10
    else if pct ≥ 60/100 then 6
    else if pct ≥ 55/100 then 55/10
    else if pct ≥ 50/100 then 5
    else if pct ≥ 45/100 then 45/10
    else 4

/-- Python's `str.lower()` as used on responses and answer keys:
character-wise lowercasing (`Char.toLower` covers the basic-latin range,
which is what the canonical keys and typical responses use). -/
def pyLower (s : String) : String :=
  String.mk (s.data.map Char.toLower)

/-- Python's `str.strip()` as applied to the incoming response
(src/app.py line 206): drop whitespace from both ends. -/
def pyStrip (s : String) : String :=
  String.mk (((s.data.dropWhile Char.isWhitespace).reverse.dropWhile
    Char.isWhitespace).reverse)

/-- The grading step of `api_answer` (src/app.py lines 216–220), as a pure
function of the question type, the answer key column, and the trimmed
response.  For `"mcq"` the comparison is Python's `response ==
q["answer_key"]`: exact string equality, and always false when the key is
NULL (a `str` never equals `None`).  For every other type it is
`response.lower() == (q["answer_key"] or "").lower()`: case-insensitive,
with a NULL key read as the empty string. -/
def grade (qtype : String) (answer_key : Option String) (response : String) : Bool :=
  if qtype = "mcq" then
    match answer_key with
    | some k => response == k
    | none => false
  else
    pyLower response == pyLower (answer_key.getD "")

/-- The row-selection predicate of the answers upsert: one stored `Answer`
per `(submission_id, question_id)` pair. -/
def pairPred (sid qid : Nat) (a : Answer) : Bool :=
  a.submission_id == sid && a.question_id == qid

/-- `api_answer` (src/app.py lines 200–237).  The acting user is the
authenticated `current_user`; the response is trimmed on entry (line 206).
Refusals (submission missing, owner mismatch, question missing — the 400
responses) return the state unchanged with payload `none`; success returns
the upserted state and `some is_correct`. -/
def api_answer (db : DB) (acting_user sid qid : Nat) (raw_response : String) :
    DB × Option Bool :=
  let response := pyStrip raw_response
  match db.submissions.find? (fun s => s.id == sid) with
  | none => (db, none)
  | some sub =>
    if sub.user_id ≠ acting_user then (db, none)
    else
      match db.questions.find? (fun q => q.id == qid) with
      | none => (db, none)
      | some q =>
        let correct := grade q.qtype q.answer_key response
        match db.answers.find? (pairPred sid qid) with
        | some existing =>
          ({ db with answers := db.answers.map (fun a =>
                if a.id == existing.id then
                  { a with response := response, is_correct := correct }
                else a) },
           some correct)
        | none =>
          ({ db with
              answers := db.answers ++
                [{ id := db.next_answer_id, submission_id := sid,
                   question_id := qid, response := response,
                   is_correct := correct }],
              next_answer_id := db.next_answer_id + 1 },
           some correct)

/-- `test_finish` (src/app.py lines 239–260).  Looks the test up by slug
and the submission by id; refuses (redirect with no write) when either is
missing or the submission is not the acting user's.  Otherwise counts the
slug-test's questions and the submission's correct answers, and writes
`raw_score`, `band_score` and `finished_at` together in one UPDATE.  `now`
stands for `datetime.datetime.utcnow().isoformat()`. -/
def test_finish (db : DB) (acting_user : Nat) (slug : String) (sid : Nat)
    (now : String) : DB × Option (Nat × ℚ) :=
  match db.tests.find? (fun t => t.slug == slug) with
  | none => (db, none)
  | some t =>
    match db.submissions.find? (fun s => s.id == sid) with
    | none => (db, none)
    | some sub =>
      if sub.user_id ≠ acting_user then (db, none)
      else
        let total := (db.questions.filter (fun q => q.test_id == t.id)).length
        let correct :=
          (db.answers.filter (fun a => a.submission_id == sid && a.is_correct)).length
        let band := band_from_raw correct total
        ({ db with submissions := db.submissions.map (fun s =>
              if s.id == sid then
                { s with raw_score := correct, band_score := band,
                         finished_at := some now }
              else s) },
         some (correct, band))

/-- Modelled from the spec: the ordered threshold table of §4.3, highest
threshold first, pairing each percentage threshold with its band. -/
def bandTable : List (ℚ × ℚ) :=
  [(95/100, 9), (90/100, 85/10), (85/100, 8), (75/100, 75/10),
   (70/100, 7), (65/100, 65/10), (60/100, 6), (55/100, 55/10),
   (50/100, 5), (45/100, 45/10)]

/-- Modelled from the spec: the scoring map as the spec words it — the
percentage is tested against the ordered table from highest to lowest,
the first matching entry's band wins, and 4.0 otherwise. -/
def bandFromTableSpec (pct : ℚ) : ℚ :=
  match bandTable.find? (fun e => decide (pct ≥ e.1)) with
  | some e => e.2
  | none => 4

/-- The storage invariants the answers table keeps in SQLite and that
`api_answer` relies on: distinct row ids, ids below the AUTOINCREMENT
counter, and at most one Answer row per (submission, question) pair. -/
def answersWF (db : DB) : Prop :=
  (db.answers.map (fun a => a.id)).Nodup ∧
  (∀ a ∈ db.answers, a.id < db.next_answer_id) ∧
  ∀ sid qid, (db.answers.filter (pairPred sid qid)).length ≤ 1

/-- A concrete two-test fixture: test 1 ("t1") owns question 1, test 2
("t2") owns question 2; user 7 holds submission 1 over test 1. -/
def exTest1 : Test :=
  { id := 1, title := "Listening Sample", slug := "t1",
    section_label := "listening", duration_minutes := 30 }

/-- The second test of the fixture. -/
def exTest2 : Test :=
  { id := 2, title := "Reading Sample", slug := "t2",
    section_label := "reading", duration_minutes := 60 }

/-- Test 1's only question: multiple-choice with key "A". -/
def exQ1 : Question :=
  { id := 1, test_id := 1, qtype := "mcq", prompt := "Q1",
    answer_key := some "A", order_index := 0 }

/-- Test 2's only question: multiple-choice with key "B". -/
def exQ2 : Question :=
  { id := 2, test_id := 2, qtype := "mcq", prompt := "Q2",
    answer_key := some "B", order_index := 0 }

/-- User 7's in-progress submission over test 1. -/
def exSub : Submission :=
  { id := 1, user_id := 7, test_id := 1, started_at := some "t0",
    finished_at := none, raw_score := 0, band_score := 0 }

/-- The fixture database: no answers stored yet. -/
def exDB : DB :=
  { tests := [exTest1, exTest2], questions := [exQ1, exQ2],
    submissions := [exSub], answers := [], next_answer_id := 1 }

/-- The fixture after user 7 answers question 1 (own test) with "A". -/
def exDB1 : DB := (api_answer exDB 7 1 1 "A").1

/-- The fixture after user 7 additionally answers question 2 — a question
of the other test — with "B". -/
def exDB2 : DB := (api_answer exDB1 7 1 2 "B").1

/-- Claim C2: for every (correct, total) with total > 0, `band_from_raw` equals
the first matching entry of the ordered threshold table (0.95 ↦ 9.0,
0.90 ↦ 8.5, 0.85 ↦ 8.0, 0.75 ↦ 7.5, 0.70 ↦ 7.0, 0.65 ↦ 6.5, 0.60 ↦ 6.0,
0.55 ↦ 5.5, 0.50 ↦ 5.0, 0.45 ↦ 4.5, else 4.0) tested from highest to
lowest on the percentage correct/total — with the irregular spacing (no
0.80 threshold) preserved in `bandTable`. -/
theorem C2_band_table_refinement (c t : Nat) (ht : t ≠ 0) :
    band_from_raw c t = bandFromTableSpec ((c : ℚ) / (t : ℚ)) := by
  by_cases h1 : (c : ℚ) / (t : ℚ) ≥ 95/100
  · simp [band_from_raw, bandFromTableSpec, bandTable, List.find?, ht, h1]
  by_cases h2 : (c : ℚ) / (t : ℚ) ≥ 90/100
  · simp [band_from_raw, bandFromTableSpec, bandTable, List.find?, ht, h1, h2]
  by_cases h3 : (c : ℚ) / (t : ℚ) ≥ 85/100
  · simp [band_from_raw, bandFromTableSpec, bandTable, List.find?, ht, h1, h2, h3]
  by_cases h4 : (c : ℚ) / (t : ℚ) ≥ 75/100
  · simp [band_from_raw, bandFromTableSpec, bandTable, List.find?, ht, h1, h2, h3, h4]
  by_cases h5 : (c : ℚ) / (t : ℚ) ≥ 70/100
  · simp [band_from_raw, bandFromTableSpec, bandTable, List.find?, ht, h1, h2, h3, h4, h5]
  by_cases h6 : (c : ℚ) / (t : ℚ) ≥ 65/100
  · simp [band_from_raw, bandFromTableSpec, bandTable, List.find?, ht, h1, h2, h3, h4, h5, h6]
  by_cases h7 : (c : ℚ) / (t : ℚ) ≥ 60/100
  · simp [band_from_raw, bandFromTableSpec, bandTable, List.find?, ht, h1, h2, h3, h4, h5, h6, h7]
  by_cases h8 : (c : ℚ) / (t : ℚ) ≥ 55/100
  · simp [band_from_raw, bandFromTableSpec, bandTable, List.find?, ht, h1, h2, h3, h4, h5, h6, h7, h8]
  by_cases h9 : (c : ℚ) / (t : ℚ) ≥ 50/100
  · simp [band_from_raw, bandFromTableSpec, bandTable, List.find?, ht, h1, h2, h3, h4, h5, h6, h7, h8, h9]
  by_cases h10 : (c : ℚ) / (t : ℚ) ≥ 45/100
  · simp [band_from_raw, bandFromTableSpec, bandTable, List.find?, ht, h1, h2, h3, h4, h5, h6, h7, h8, h9, h10]
  simp [band_from_raw, bandFromTableSpec, bandTable, List.find?, ht, h1, h2, h3, h4, h5, h6, h7, h8, h9, h10]

/-- Filtering commutes with a rewrite that does not move rows in or out
of the filter. -/
theorem filter_map_comm {α : Type} (f : α → α) (p : α → Bool)
    (hf : ∀ a, p (f a) = p a) (l : List α) :
    (l.map f).filter p = (l.filter p).map f := by
  induction l with
  | nil => rfl
  | cons a l ih =>
    cases hp : p a with
    | true => simp [List.filter_cons, hf a, hp, ih]
    | false => simp [List.filter_cons, hf a, hp, ih]

/-- A SELECT that finds no row means the WHERE clause filters to nothing. -/
theorem filter_eq_nil_of_find?_eq_none {α : Type} {p : α → Bool} {l : List α}
    (h : l.find? p = none) : l.filter p = [] := by
  rw [List.filter_eq_nil_iff]
  intro a ha
  simpa using List.find?_eq_none.mp h a ha

/-- A row satisfying a WHERE clause that matches at most one row is the
whole result set. -/
theorem filter_eq_singleton {α : Type} {p : α → Bool} {l : List α} {x : α}
    (hx : x ∈ l) (hpx : p x = true)
    (hlen : (l.filter p).length ≤ 1) : l.filter p = [x] := by
  have hmem : x ∈ l.filter p := List.mem_filter.mpr ⟨hx, hpx⟩
  cases hfl : l.filter p with
  | nil => rw [hfl] at hmem; cases hmem
  | cons b bs =>
    cases bs with
    | nil =>
      rw [hfl] at hmem
      have hxb : x = b := by simpa using hmem
      simp [hxb]
    | cons c cs =>
      rw [hfl] at hlen
      simp at hlen

/-- The in-place update of the upsert keeps every row id. -/
theorem map_id_of_update (eid : Nat) (resp : String) (c : Bool) (l : List Answer) :
    (l.map (fun a => if a.id == eid then
        { a with response := resp, is_correct := c } else a)).map (fun a => a.id)
      = l.map (fun a => a.id) := by
  rw [List.map_map]
  refine List.map_congr_left ?_
  intro a _
  by_cases h : a.id = eid <;> simp [h]

/-- The in-place update of the upsert touches neither key field. -/
theorem pairPred_update (eid : Nat) (resp : String) (c : Bool)
    (a : Answer) (p q : Nat) :
    pairPred p q (if a.id == eid then
      { a with response := resp, is_correct := c } else a) = pairPred p q a := by
  by_cases h : a.id == eid <;> simp [pairPred, h]

/-- `api_answer` preserves the storage invariants. -/
theorem api_answer_WF {db : DB} (hWF : answersWF db) (u sid qid : Nat)
    (r : String) : answersWF (api_answer db u sid qid r).1 := by
  obtain ⟨hids, hbound, hpair⟩ := hWF
  cases hfs : db.submissions.find? (fun s => s.id == sid) with
  | none => exact (by simpa [api_answer, hfs] using ⟨hids, hbound, hpair⟩)
  | some sub =>
  by_cases hu : sub.user_id ≠ u
  · exact (by simpa [api_answer, hfs, hu] using ⟨hids, hbound, hpair⟩)
  cases hfq : db.questions.find? (fun x => x.id == qid) with
  | none => exact (by simpa [api_answer, hfs, hfq, hu] using ⟨hids, hbound, hpair⟩)
  | some q =>
  cases hfa : db.answers.find? (pairPred sid qid) with
  | some existing =>
    have hu' : ¬sub.user_id ≠ u := hu
    simp only [api_answer, hfs, hfq, hfa]
    rw [if_neg hu']
    refine ⟨?_, ?_, ?_⟩
    · rw [map_id_of_update]
      exact hids
    · intro a ha
      obtain ⟨b, hb, rfl⟩ := List.mem_map.mp ha
      by_cases h : b.id = existing.id <;> simpa [h] using hbound b hb
    · intro p q'
      rw [filter_map_comm _ _ (pairPred_update existing.id _ _ · p q'),
        List.length_map]
      exact hpair p q'
  | none =>
    have hu' : ¬sub.user_id ≠ u := hu
    simp only [api_answer, hfs, hfq, hfa]
    rw [if_neg hu']
    refine ⟨?_, ?_, ?_⟩
    · rw [List.map_append, List.nodup_append]
      refine ⟨hids, by simp, ?_⟩
      intro i hi
      obtain ⟨a, ha, rfl⟩ := List.mem_map.mp hi
      simp only [List.map_cons, List.map_nil, List.mem_singleton]
      exact fun hcontra => absurd hcontra (by simpa using (hbound a ha).ne)
    · intro a ha
      rcases List.mem_append.mp ha with h | h
      · exact Nat.lt_trans (hbound a h) (Nat.lt_succ_self _)
      · simp at h
        simp [h]
    · intro p q'
      rw [List.filter_append]
      by_cases hpq : (sid == p && qid == q') = true
      · have h1 : p = sid := by simp at hpq; omega
        have h2 : q' = qid := by simp at hpq; omega
        subst h1; subst h2
        rw [filter_eq_nil_of_find?_eq_none hfa]
        simp [pairPred]
      · have : (List.filter (pairPred p q')
            [{ id := db.next_answer_id, submission_id := sid,
               question_id := qid, response := pyStrip r,
               is_correct := grade q.qtype q.answer_key (pyStrip r) }]) = [] := by
          simp only [List.filter, pairPred]
          simp only [Bool.not_eq_true] at hpq
          simp [hpq]
        rw [this, List.append_nil]
        exact hpair p q'

/-- A rewrite that fixes every member of a list is the identity on it. -/
theorem map_eq_self_of_id {α : Type} (f : α → α) (l : List α)
    (h : ∀ a ∈ l, f a = a) : l.map f = l := by
  induction l with
  | nil => rfl
  | cons a l ih =>
    simp only [List.map_cons, h a (by simp)]
    rw [ih (fun b hb => h b (by simp [hb]))]

/-- A successful `api_answer` answers with the grading verdict of the
found question against the trimmed response. -/
theorem api_answer_verdict {db : DB} {u sid qid : Nat} {sub : Submission}
    {q : Question} (r : String)
    (hfs : db.submissions.find? (fun s => s.id == sid) = some sub)
    (hu : sub.user_id = u)
    (hfq : db.questions.find? (fun x => x.id == qid) = some q) :
    (api_answer db u sid qid r).2 =
      some (grade q.qtype q.answer_key (pyStrip r)) := by
  have hu' : ¬sub.user_id ≠ u := by simp [hu]
  cases hfa : db.answers.find? (pairPred sid qid) with
  | some existing =>
    simp only [api_answer, hfs, hfq, hfa]
    rw [if_neg hu']
  | none =>
    simp only [api_answer, hfs, hfq, hfa]
    rw [if_neg hu']

/-- A successful `api_answer` leaves exactly one Answer row for the
addressed (submission, question) pair: the trimmed response together with
its grading verdict, whether the call inserted or overwrote. -/
theorem api_answer_stored {db : DB} {u sid qid : Nat} {sub : Submission}
    {q : Question} (r : String) (hWF : answersWF db)
    (hfs : db.submissions.find? (fun s => s.id == sid) = some sub)
    (hu : sub.user_id = u)
    (hfq : db.questions.find? (fun x => x.id == qid) = some q) :
    ∃ i, (api_answer db u sid qid r).1.answers.filter (pairPred sid qid) =
      [{ id := i, submission_id := sid, question_id := qid,
         response := pyStrip r,
         is_correct := grade q.qtype q.answer_key (pyStrip r) }] := by
  obtain ⟨hids, hbound, hpair⟩ := hWF
  have hu' : ¬sub.user_id ≠ u := by simp [hu]
  cases hfa : db.answers.find? (pairPred sid qid) with
  | none =>
    refine ⟨db.next_answer_id, ?_⟩
    simp only [api_answer, hfs, hfq, hfa]
    rw [if_neg hu']
    rw [List.filter_append, filter_eq_nil_of_find?_eq_none hfa]
    simp [pairPred]
  | some existing =>
    refine ⟨existing.id, ?_⟩
    have hmem := List.mem_of_find?_eq_some hfa
    have hpx : pairPred sid qid existing = true := List.find?_some hfa
    have hkey : existing.submission_id = sid ∧ existing.question_id = qid := by
      simpa [pairPred] using hpx
    simp only [api_answer, hfs, hfq, hfa]
    rw [if_neg hu']
    rw [filter_map_comm _ _ (pairPred_update existing.id _ _ · sid qid),
      filter_eq_singleton hmem hpx (hpair sid qid)]
    simp [← hkey.1, ← hkey.2]

example : band_from_raw 17 20 = 8 := by norm_num [band_from_raw]
example : band_from_raw 19 20 = 9 := by norm_num [band_from_raw]
example : band_from_raw 18 20 = 85/10 := by norm_num [band_from_raw]
example : band_from_raw 5 0 = 0 := by norm_num [band_from_raw]
example : grade "mcq" (some "B") "b" = false := by decide
example : grade "fill" (some "Paris") "paris" = true := by decide
example : grade "mcq" none "" = false := by decide
example : grade "fill" none "" = true := by decide

/-- Witness for C2 at (17, 20). -/
theorem C2_witness :
    band_from_raw 17 20 = bandFromTableSpec (((17 : Nat) : ℚ) / ((20 : Nat) : ℚ)) :=
  C2_band_table_refinement 17 20 (by decide)

/-- Claim C8: with a zero question total the band is 0.0 whatever the correct
count; the percentage division sits behind the `total = 0` guard and is
never evaluated there. -/
theorem C8_zero_total_band (c : Nat) : band_from_raw c 0 = 0 := by
  simp [band_from_raw]

/-- Counterexample to claim C6: the claim asserts bandFromRaw(17, 20) = 8.5, but
17/20 = 0.85 meets the 0.85 threshold first and the code returns 8.0. -/
theorem C6_counterexample : band_from_raw 17 20 ≠ 85/10 := by
  norm_num [band_from_raw]

/-- Claim C6 as amended: the boundary examples as the code computes them —
bandFromRaw(19, 20) = 9.0, bandFromRaw(18, 20) = 8.5 (18/20 = 0.90), and
bandFromRaw(17, 20) = 8.0 (17/20 = 0.85). -/
theorem C6_amended_boundaries :
    band_from_raw 19 20 = 9 ∧ band_from_raw 18 20 = 85/10 ∧
    band_from_raw 17 20 = 8 := by
  refine ⟨?_, ?_, ?_⟩ <;> norm_num [band_from_raw]

/-- Claim C3: multiple-choice grading is exact, case-sensitive string equality
of the response with the key; every other question type compares the
lower-cased response with the lower-cased key; the grading step itself
neither trims nor otherwise normalizes either side. -/
theorem C3_grading_rules (qtype k r : String) (hq : qtype ≠ "mcq") :
    grade "mcq" (some k) r = (r == k) ∧
    grade qtype (some k) r = (pyLower r == pyLower k) := by
  constructor
  · simp [grade]
  · simp [grade, hq]

/-- Witness for C3: key "B" against response "b", graded both ways. -/
theorem C3_witness :
    grade "mcq" (some "B") "b" = ("b" == "B") ∧
    grade "fill" (some "B") "b" = (pyLower "b" == pyLower "B") :=
  C3_grading_rules "fill" "B" "b" (by decide)

/-- Counterexample to claim C7: for a multiple-choice question the code compares
the response against NULL, which is never equal, so a null key is not
graded like the empty-string key — the empty response is rejected against
an unset key but accepted against an empty-string key. -/
theorem C7_counterexample :
    grade "mcq" none "" = false ∧ grade "mcq" (some "") "" = true := by
  constructor <;> decide

/-- Claim C7 as amended: for every non-multiple-choice question type a null key
grades exactly like the empty-string key — in particular an empty trimmed
response against an unset key is flagged correct — while for
multiple-choice a null key matches no response at all. -/
theorem C7_amended_null_key (qtype r : String) (hq : qtype ≠ "mcq") :
    grade qtype none r = grade qtype (some "") r ∧
    grade qtype none "" = true ∧
    grade "mcq" none r = false := by
  refine ⟨?_, ?_, ?_⟩ <;> simp [grade, hq]

/-- Witness for C7 as amended, at qtype "fill", response "x". -/
theorem C7_witness :
    grade "fill" none "x" = grade "fill" (some "") "x" ∧
    grade "fill" none "" = true ∧
    grade "mcq" none "x" = false :=
  C7_amended_null_key "fill" "x" (by decide)

/-- Claim C5: a SubmitAnswer call whose submission id does not exist, whose
submission belongs to another user, or whose question id does not exist —
and a FinishSubmission call whose submission id does not exist or belongs
to another user — is refused and returns the database unchanged. -/
theorem C5_refusals_unchanged (db : DB) (u sid qid : Nat)
    (r slug now : String) :
    (((∀ s ∈ db.submissions, s.id ≠ sid) ∨
      (∀ s ∈ db.submissions, s.id = sid → s.user_id ≠ u) ∨
      (∀ q ∈ db.questions, q.id ≠ qid)) →
        api_answer db u sid qid r = (db, none)) ∧
    (((∀ s ∈ db.submissions, s.id ≠ sid) ∨
      (∀ s ∈ db.submissions, s.id = sid → s.user_id ≠ u)) →
        test_finish db u slug sid now = (db, none)) := by
  constructor
  · intro h
    cases hfs : db.submissions.find? (fun s => s.id == sid) with
    | none => simp [api_answer, hfs]
    | some sub =>
      have hmem := List.mem_of_find?_eq_some hfs
      have hid : sub.id = sid := by simpa using List.find?_some hfs
      rcases h with h | h | h
      · exact absurd hid (h sub hmem)
      · have hne := h sub hmem hid
        simp [api_answer, hfs, hne]
      · by_cases hu : sub.user_id ≠ u
        · simp [api_answer, hfs, hu]
        · cases hfq : db.questions.find? (fun x => x.id == qid) with
          | none => simp [api_answer, hfs, hfq, hu]
          | some q =>
            have hqm := List.mem_of_find?_eq_some hfq
            have hqid : q.id = qid := by simpa using List.find?_some hfq
            exact absurd hqid (h q hqm)
  · intro h
    cases hft : db.tests.find? (fun t => t.slug == slug) with
    | none => simp [test_finish, hft]
    | some t =>
      cases hfs : db.submissions.find? (fun s => s.id == sid) with
      | none => simp [test_finish, hft, hfs]
      | some sub =>
        have hmem := List.mem_of_find?_eq_some hfs
        have hid : sub.id = sid := by simpa using List.find?_some hfs
        rcases h with h | h
        · exact absurd hid (h sub hmem)
        · have hne := h sub hmem hid
          simp [test_finish, hft, hfs, hne]

/-- Witness for C5: submission 9 does not exist in the fixture, so both
endpoints refuse and leave it untouched. -/
theorem C5_witness :
    api_answer exDB 7 9 1 "A" = (exDB, none) ∧
    test_finish exDB 7 "t1" 9 "tf" = (exDB, none) :=
  ⟨(C5_refusals_unchanged exDB 7 9 1 "A" "t1" "tf").1 (Or.inl (by
      intro s hs
      simp [exDB, exSub] at hs
      simp [hs, exSub])),
   (C5_refusals_unchanged exDB 7 9 1 "A" "t1" "tf").2 (Or.inl (by
      intro s hs
      simp [exDB, exSub] at hs
      simp [hs, exSub]))⟩

/-- `api_answer` never writes the submissions, tests or questions tables,
on any path. -/
theorem api_answer_tables (db : DB) (u sid qid : Nat) (r : String) :
    (api_answer db u sid qid r).1.submissions = db.submissions ∧
    (api_answer db u sid qid r).1.tests = db.tests ∧
    (api_answer db u sid qid r).1.questions = db.questions := by
  cases hfs : db.submissions.find? (fun s => s.id == sid) with
  | none => simp [api_answer, hfs]
  | some sub =>
  by_cases hu : sub.user_id ≠ u
  · simp [api_answer, hfs, hu]
  cases hfq : db.questions.find? (fun x => x.id == qid) with
  | none => simp [api_answer, hfs, hfq, hu]
  | some q =>
  cases hfa : db.answers.find? (pairPred sid qid) with
  | some existing =>
    simp only [api_answer, hfs, hfq, hfa]
    rw [if_neg hu]
    exact ⟨rfl, rfl, rfl⟩
  | none =>
    simp only [api_answer, hfs, hfq, hfa]
    rw [if_neg hu]
    exact ⟨rfl, rfl, rfl⟩

/-- `api_answer` leaves the Answer rows of every other
(submission, question) pair exactly as they were. -/
theorem api_answer_other_pairs (db : DB) (u sid qid : Nat) (r : String)
    (hids : (db.answers.map (fun a => a.id)).Nodup) :
    ∀ p q', p ≠ sid ∨ q' ≠ qid →
      (api_answer db u sid qid r).1.answers.filter (pairPred p q') =
        db.answers.filter (pairPred p q') := by
  intro p q' hpq
  cases hfs : db.submissions.find? (fun s => s.id == sid) with
  | none => simp [api_answer, hfs]
  | some sub =>
  by_cases hu : sub.user_id ≠ u
  · simp [api_answer, hfs, hu]
  cases hfq : db.questions.find? (fun x => x.id == qid) with
  | none => simp [api_answer, hfs, hfq, hu]
  | some q =>
  cases hfa : db.answers.find? (pairPred sid qid) with
  | some existing =>
    have hpx : pairPred sid qid existing = true := List.find?_some hfa
    have hmem := List.mem_of_find?_eq_some hfa
    have hkey : existing.submission_id = sid ∧ existing.question_id = qid := by
      simpa [pairPred] using hpx
    simp only [api_answer, hfs, hfq, hfa]
    rw [if_neg hu]
    rw [filter_map_comm _ _ (pairPred_update existing.id _ _ · p q')]
    refine map_eq_self_of_id _ _ ?_
    intro a ha
    have hamem : a ∈ db.answers := (List.mem_filter.mp ha).1
    have hapred : pairPred p q' a = true := (List.mem_filter.mp ha).2
    by_cases hid : a.id = existing.id
    · exfalso
      have haex : a = existing := List.inj_on_of_nodup_map hids hamem hmem hid
      subst haex
      have h1 : a.submission_id = p ∧ a.question_id = q' := by
        simpa [pairPred] using hapred
      rcases hpq with hp | hq'
      · exact hp (by omega)
      · exact hq' (by omega)
    · simp [hid]
  | none =>
    simp only [api_answer, hfs, hfq, hfa]
    rw [if_neg hu]
    rw [List.filter_append]
    have hnew : pairPred p q'
        { id := db.next_answer_id, submission_id := sid, question_id := qid,
          response := pyStrip r,
          is_correct := grade q.qtype q.answer_key (pyStrip r) } = false := by
      rcases hpq with hp | hq' <;> simp [pairPred] <;> omega
    simp [List.filter, hnew]

/-- Claim C9: a successful SubmitAnswer call leaves the submission row itself —
raw_score, band_score, started_at, finished_at — untouched (the
submissions table is not written, nor are tests or questions); only the
Answer rows of the addressed (submission, question) pair change. -/
theorem C9_submit_frame (db : DB) (u sid qid : Nat) (r : String)
    (hids : (db.answers.map (fun a => a.id)).Nodup) :
    (api_answer db u sid qid r).1.submissions = db.submissions ∧
    (api_answer db u sid qid r).1.tests = db.tests ∧
    (api_answer db u sid qid r).1.questions = db.questions ∧
    ∀ p q', p ≠ sid ∨ q' ≠ qid →
      (api_answer db u sid qid r).1.answers.filter (pairPred p q') =
        db.answers.filter (pairPred p q') := by
  obtain ⟨h1, h2, h3⟩ := api_answer_tables db u sid qid r
  exact ⟨h1, h2, h3, api_answer_other_pairs db u sid qid r hids⟩

/-- Witness for C9 on the fixture: answering question 1 touches neither
the submission row nor the Answer rows of the pair (1, 2). -/
theorem C9_witness :
    (api_answer exDB 7 1 1 "A").1.submissions = exDB.submissions ∧
    (api_answer exDB 7 1 1 "A").1.answers.filter (pairPred 1 2) =
      exDB.answers.filter (pairPred 1 2) :=
  ⟨(C9_submit_frame exDB 7 1 1 "A" (by simp [exDB])).1,
   (C9_submit_frame exDB 7 1 1 "A" (by simp [exDB])).2.2.2 1 2 (by decide)⟩

/-- Claim C4: however many times SubmitAnswer is called for the same
(submission, question) pair, exactly one Answer row remains for it, and
after a second call with a (possibly different) response it holds the
latest trimmed response with its recomputed correctness — the second call
overwrites in place instead of inserting a duplicate. -/
theorem C4_upsert_idempotent {db : DB} {u sid qid : Nat} {sub : Submission}
    {q : Question} (r1 r2 : String) (hWF : answersWF db)
    (hfs : db.submissions.find? (fun s => s.id == sid) = some sub)
    (hu : sub.user_id = u)
    (hfq : db.questions.find? (fun x => x.id == qid) = some q) :
    ∃ i, ((api_answer (api_answer db u sid qid r1).1 u sid qid r2).1.answers.filter
        (pairPred sid qid)) =
      [{ id := i, submission_id := sid, question_id := qid,
         response := pyStrip r2,
         is_correct := grade q.qtype q.answer_key (pyStrip r2) }] := by
  have hWF1 := api_answer_WF hWF u sid qid r1
  obtain ⟨hsubs, -, hqs⟩ := api_answer_tables db u sid qid r1
  refine api_answer_stored r2 hWF1 ?_ hu ?_
  · rw [hsubs]; exact hfs
  · rw [hqs]; exact hfq

/-- Witness for C4 on the fixture: question 1 answered "x" then "A". -/
theorem C4_witness :
    ∃ i, ((api_answer (api_answer exDB 7 1 1 "x").1 7 1 1 "A").1.answers.filter
        (pairPred 1 1)) =
      [{ id := i, submission_id := 1, question_id := 1,
         response := pyStrip "A",
         is_correct := grade exQ1.qtype exQ1.answer_key (pyStrip "A") }] :=
  C4_upsert_idempotent "x" "A"
    ⟨by simp [exDB], by simp [exDB], by simp [exDB]⟩ rfl rfl rfl

/-- Claim C1: a successful FinishSubmission on a submission the acting user
owns, addressed through its own existing test, writes in one UPDATE
raw_score = the count of this submission's correct Answer rows,
band_score = band_from_raw of that count and the test's question count,
and finished_at = the current UTC time — and reports the same scores. -/
theorem C1_finish_writes_scores (db : DB) (u sid : Nat) (slug now : String)
    (t : Test) (sub : Submission) (c tot : Nat)
    (hft : db.tests.find? (fun x => x.slug == slug) = some t)
    (hfs : db.submissions.find? (fun s => s.id == sid) = some sub)
    (hu : sub.user_id = u)
    (htid : sub.test_id = t.id)
    (hc : c = (db.answers.filter
        (fun a => a.submission_id == sid && a.is_correct)).length)
    (htot : tot = (db.questions.filter
        (fun q => q.test_id == sub.test_id)).length) :
    (test_finish db u slug sid now).2 = some (c, band_from_raw c tot) ∧
    (∀ s ∈ (test_finish db u slug sid now).1.submissions, s.id = sid →
        s.raw_score = c ∧ s.band_score = band_from_raw c tot ∧
        s.finished_at = some now) ∧
    ∃ s ∈ (test_finish db u slug sid now).1.submissions, s.id = sid := by
  subst hc
  subst htot
  simp only [htid]
  have hu' : ¬sub.user_id ≠ u := by simp [hu]
  have hsid : sub.id = sid := by simpa using List.find?_some hfs
  have hsmem := List.mem_of_find?_eq_some hfs
  simp only [test_finish, hft, hfs]
  rw [if_neg hu']
  refine ⟨rfl, ?_, ?_⟩
  · intro s hs hsid'
    simp only [List.mem_map] at hs
    obtain ⟨s0, hs0, rfl⟩ := hs
    by_cases h : s0.id = sid
    · simp [h]
    · rw [if_neg (by simpa using h)] at hsid'
      exact absurd hsid' h
  · exact ⟨_, List.mem_map_of_mem _ hsmem, by simp [hsid]⟩

/-- Witness for C1 on the fixture after one correct answer: 1 correct of
1 question, band_from_raw 1 1. -/
theorem C1_witness :
    (test_finish exDB1 7 "t1" 1 "tf").2 = some (1, band_from_raw 1 1) ∧
    (∀ s ∈ (test_finish exDB1 7 "t1" 1 "tf").1.submissions, s.id = 1 →
        s.raw_score = 1 ∧ s.band_score = band_from_raw 1 1 ∧
        s.finished_at = some "tf") ∧
    ∃ s ∈ (test_finish exDB1 7 "t1" 1 "tf").1.submissions, s.id = 1 :=
  C1_finish_writes_scores exDB1 7 1 "t1" "tf" exTest1 exSub 1 1
    rfl rfl rfl rfl rfl rfl

/-- Claim C10: SubmitAnswer never checks that the addressed question belongs to
the submission's test — any existing question (first conjunct, with no
hypothesis relating `q.test_id` to `sub.test_id`) is accepted, graded
against its own key, and stored. Concretely (second conjunct): answering
test 2's question from a submission over one-question test 1 and
finishing yields raw_score 2 above the total 1, with the band computed
from a percentage above 1 (band_from_raw 2 1 = 9). -/
theorem C10_foreign_question_accepted (db : DB) (u sid qid : Nat)
    (r : String) (sub : Submission) (q : Question)
    (hfs : db.submissions.find? (fun s => s.id == sid) = some sub)
    (hu : sub.user_id = u)
    (hfq : db.questions.find? (fun x => x.id == qid) = some q) :
    ((api_answer db u sid qid r).2 =
        some (grade q.qtype q.answer_key (pyStrip r)) ∧
      ∃ a ∈ (api_answer db u sid qid r).1.answers,
        a.submission_id = sid ∧ a.question_id = qid ∧
        a.response = pyStrip r ∧
        a.is_correct = grade q.qtype q.answer_key (pyStrip r)) ∧
    ((api_answer exDB1 7 1 2 "B").2 = some true ∧
      (test_finish exDB2 7 "t1" 1 "tf").2 = some (2, band_from_raw 2 1) ∧
      band_from_raw 2 1 = 9 ∧
      (exDB2.questions.filter (fun x => x.test_id == exTest1.id)).length
        = 1) := by
  have hu' : ¬sub.user_id ≠ u := by simp [hu]
  refine ⟨⟨api_answer_verdict r hfs hu hfq, ?_⟩,
    rfl, rfl, by norm_num [band_from_raw], rfl⟩
  cases hfa : db.answers.find? (pairPred sid qid) with
  | some existing =>
    have hpx : pairPred sid qid existing = true := List.find?_some hfa
    have hkey : existing.submission_id = sid ∧ existing.question_id = qid := by
      simpa [pairPred] using hpx
    have hmem := List.mem_of_find?_eq_some hfa
    simp only [api_answer, hfs, hfq, hfa]
    rw [if_neg hu']
    refine ⟨_, List.mem_map_of_mem _ hmem, ?_⟩
    simp [hkey.1, hkey.2]
  | none =>
    simp only [api_answer, hfs, hfq, hfa]
    rw [if_neg hu']
    refine ⟨{ id := db.next_answer_id, submission_id := sid,
              question_id := qid, response := pyStrip r,
              is_correct := grade q.qtype q.answer_key (pyStrip r) },
      by simp, by simp⟩

/-- Witness for C10: submission 1 (over test 1) answering test 2's
question 2. -/
theorem C10_witness :
    ((api_answer exDB 7 1 2 "B").2 =
        some (grade exQ2.qtype exQ2.answer_key (pyStrip "B")) ∧
      ∃ a ∈ (api_answer exDB 7 1 2 "B").1.answers,
        a.submission_id = 1 ∧ a.question_id = 2 ∧
        a.response = pyStrip "B" ∧
        a.is_correct = grade exQ2.qtype exQ2.answer_key (pyStrip "B")) ∧
    ((api_answer exDB1 7 1 2 "B").2 = some true ∧
      (test_finish exDB2 7 "t1" 1 "tf").2 = some (2, band_from_raw 2 1) ∧
      band_from_raw 2 1 = 9 ∧
      (exDB2.questions.filter (fun x => x.test_id == exTest1.id)).length
        = 1) :=
  C10_foreign_question_accepted exDB 7 1 2 "B" exSub exQ2 rfl rfl rfl

/-- Witness for C8 at correct = 5. -/
theorem C8_witness : band_from_raw 5 0 = 0 := C8_zero_total_band 5

example : pyStrip "A" = "A" := rfl
example : exDB1 =
    { tests := [exTest1, exTest2], questions := [exQ1, exQ2],
      submissions := [exSub], answers := [⟨1, 1, 1, "A", true⟩],
      next_answer_id := 2 } := rfl
example : (api_answer exDB1 7 1 2 "B").2 = some true := rfl
example : (test_finish exDB2 7 "t1" 1 "tf").2 = some (2, band_from_raw 2 1) := rfl
example : exDB.submissions.find? (fun s => s.id == 1) = some exSub := rfl
example : answersWF exDB := ⟨by simp [exDB], by simp [exDB], by simp [exDB]⟩
example : answersWF exDB1 := api_answer_WF ⟨by simp [exDB], by simp [exDB], by simp [exDB]⟩ 7 1 1 "A"

end IeltsMock
